import Mathlib

/-!
# Admission webhook handler (`main.go`)

A shallow embedding of `Handler` from `main.go` and the properties of its
decode, policy and encode pipeline.

Modelling conventions.

* Go pointers (`*AdmissionRequest`, `*AdmissionResponse`, `*metav1.Status`) are
  `Option`s; `nil` is `none`.  Reading a field through a nil pointer is the
  outcome `Outcome.panic`.
* The three library calls of the handler (`json.Unmarshal`, the universal
  deserializer's `Decode`, `json.Marshal`) are the fields of `Library`; the
  handler is a function of them.
* `log.Printf` lines only write diagnostics and are left out.
-/

set_option linter.dupNamespace false

namespace AdmissionController

/-! ## Data model -/

/-- The type `metav1.GroupVersionResource`. -/
structure GroupVersionResource where
  Group : String := ""
  Version : String := ""
  Resource : String := ""
  deriving DecidableEq, Repr

/-- The type `metav1.GroupVersionKind`. -/
structure GroupVersionKind where
  Group : String := ""
  Version : String := ""
  Kind : String := ""
  deriving DecidableEq, Repr

/-- The type `metav1.TypeMeta`. -/
structure TypeMeta where
  Kind : String := ""
  APIVersion : String := ""
  deriving DecidableEq, Repr

/-- The type `runtime.RawExtension`, reduced to its byte payload. -/
structure RawExtension where
  Raw : List UInt8 := []
  deriving DecidableEq, Repr

/-- The type `authenticationv1.UserInfo`. -/
structure UserInfo where
  Username : String := ""
  UID : String := ""
  Groups : List String := []
  Extra : List (String × List String) := []
  deriving DecidableEq, Repr

/-- The type `metav1.Status`, with the fields the handler sets. -/
structure Status where
  Status : String := ""
  Message : String := ""
  Reason : String := ""
  Code : Int := 0
  deriving DecidableEq, Repr

/-- The type `v1beta1.AdmissionResponse`, with the fields the handler sets. -/
structure AdmissionResponse where
  UID : String := ""
  Allowed : Bool := false
  Result : Option Status := none
  deriving DecidableEq, Repr

/-- The type `v1beta1.AdmissionRequest`.  The fields that the declaration of
the library version in use has besides the listed ones are the component
`Other`, of a parameter type. -/
structure AdmissionRequest (ρ : Type) where
  UID : String := ""
  Kind : GroupVersionKind := {}
  Resource : GroupVersionResource := {}
  Namespace : String := ""
  Operation : String := ""
  UserInfo : UserInfo := {}
  Object : RawExtension := {}
  OldObject : RawExtension := {}
  Other : ρ
  deriving DecidableEq, Repr

/-- The type `v1beta1.AdmissionReview`: both members are pointers. -/
structure AdmissionReview (ρ : Type) where
  TypeMeta : TypeMeta := {}
  Request : Option (AdmissionRequest ρ) := none
  Response : Option AdmissionResponse := none
  deriving DecidableEq, Repr

/-- The type `k8v1.EnvVar`. -/
structure EnvVar where
  Name : String := ""
  Value : String := ""
  deriving DecidableEq, Repr

/-- The type `k8v1.EnvFromSource`, reduced to the names it refers to. -/
structure EnvFromSource where
  ConfigMapRef : Option String := none
  SecretRef : Option String := none
  deriving DecidableEq, Repr

/-- The type `k8v1.Container`, with its name and environment. -/
structure Container where
  Name : String := ""
  Env : List EnvVar := []
  EnvFrom : List EnvFromSource := []
  deriving DecidableEq, Repr

/-- The type `k8v1.PodSpec`, with its three container lists. -/
structure PodSpec where
  InitContainers : List Container := []
  Containers : List Container := []
  EphemeralContainers : List Container := []
  deriving DecidableEq, Repr

/-- The type `metav1.ObjectMeta`, with name, namespace and labels. -/
structure ObjectMeta where
  Name : String := ""
  Namespace : String := ""
  Labels : List (String × String) := []
  deriving DecidableEq, Repr

/-- The type `k8v1.Pod`. -/
structure Pod where
  ObjectMeta : ObjectMeta := {}
  Spec : PodSpec := {}
  deriving DecidableEq, Repr

/-- The type `events.APIGatewayProxyRequestContext`, with the logged id. -/
structure APIGatewayProxyRequestContext where
  RequestID : String := ""
  deriving DecidableEq, Repr

/-- The type `events.APIGatewayProxyRequest`, with the fields the handler reads. -/
structure APIGatewayProxyRequest where
  Body : String := ""
  RequestContext : APIGatewayProxyRequestContext := {}
  deriving DecidableEq, Repr

/-- The type `events.APIGatewayProxyResponse`. -/
structure APIGatewayProxyResponse where
  StatusCode : Int := 0
  Headers : List (String × String) := []
  Body : String := ""
  IsBase64Encoded : Bool := false
  deriving DecidableEq, Repr

/-- A Go `error` value made by `errors.New`. -/
structure GoError where
  msg : String
  deriving DecidableEq, Repr

/-- What a call of `Handler` ends with: the returned pair (a `nil` error is
`none`), or a run-time panic. -/
inductive Outcome where
  | ret (response : APIGatewayProxyResponse) (err : Option GoError)
  | panic
  deriving DecidableEq, Repr

/-- The three library calls made by `Handler`.

* `Unmarshal body` is `json.Unmarshal([]byte(body), &admissionrequest)` on the
  zero `AdmissionReview`: `none` when it returns an error, otherwise the
  content of `admissionrequest` after the call.
* `Decode raw` is `deserializer.Decode(raw, nil, &RequestPod)` on the zero
  `Pod`: `none` when it returns an error, otherwise the content of
  `RequestPod` after the call.
* `Marshal review` is `json.Marshal(review)`: `none` when it returns an error
  (the byte slice is then nil), otherwise the bytes as a string. -/
structure Library (ρ : Type) where
  Unmarshal : String → Option (AdmissionReview ρ)
  Decode : List UInt8 → Option Pod
  Marshal : AdmissionReview ρ → Option String

/-! ## The program -/

/-- The variable `ErrNameNotProvided` (lines 18-21). -/
def ErrNameNotProvided : GoError := ⟨"no name was provided in the HTTP body"⟩

/-- The predicate `unicode.IsSpace`, which `strings.TrimSpace` cuts by. -/
def isSpace (c : Char) : Bool :=
  c = '\t' || c = '\n' || c.toNat = 0x0B || c.toNat = 0x0C || c = '\r' || c = ' '
    || c.toNat = 0x85 || c.toNat = 0xA0 || c.toNat = 0x1680
    || (0x2000 ≤ c.toNat && c.toNat ≤ 0x200A)
    || c.toNat = 0x2028 || c.toNat = 0x2029 || c.toNat = 0x202F
    || c.toNat = 0x205F || c.toNat = 0x3000

/-- The function `strings.TrimSpace`: leading and trailing white space removed. -/
def TrimSpace (s : String) : String :=
  String.mk ((s.data.dropWhile isSpace).reverse.dropWhile isSpace).reverse

/-- The literal `podResource` of line 55. -/
def podResource : GroupVersionResource :=
  { Group := "", Version := "v1", Resource := "pods" }

/-- The `*metav1.Status` built at lines 39-42. -/
def allowResult : Status :=
  { Message := TrimSpace "Allowed if there is no envvars", Code := 200 }

/-- The `*metav1.Status` built at lines 76-81. -/
def denyResult : Status :=
  { Message := TrimSpace "Has env vars so not allowing !! Allowed if there is no envvars"
    Code := 200
    Reason := "Has env vars so not allowing !! Allowed if there is no envvars"
    Status := "Has env vars so not allowing !! Allowed if there is no envvars" }

/-- The closing block, written twice in the source (lines 83-90 and 95-102):
attach the response, clear both objects of the request, serialize, and return
the bytes with status 200 and a nil error.  The serializer's error is dropped
(`resultBody, _ :=`), so a failed call leaves the nil slice, the empty body.
`req` is the struct behind the non-nil pointer `admissionrequest.Request`. -/
def writeVerdict {ρ : Type} (lib : Library ρ) (admissionrequest : AdmissionReview ρ)
    (req : AdmissionRequest ρ) (response : AdmissionResponse) : Outcome :=
  let admissionrequest : AdmissionReview ρ :=
    { admissionrequest with
      Response := some response
      Request := some { req with Object := {}, OldObject := {} } }
  let resultBody := lib.Marshal admissionrequest
  Outcome.ret { Body := resultBody.getD "", StatusCode := 200 } none

/-- The `for` loop of lines 71-93 followed by lines 95-102: the first container
with more than one `Env` entry rewrites the response and returns from inside
the loop; when the range is exhausted the response is returned as it stands. -/
def containersLoop {ρ : Type} (lib : Library ρ) (admissionrequest : AdmissionReview ρ)
    (req : AdmissionRequest ρ) (response : AdmissionResponse) : List Container → Outcome
  | [] => writeVerdict lib admissionrequest req response
  | container :: rest =>
    if container.Env.length > 1 then
      writeVerdict lib admissionrequest req
        { response with Allowed := false, Result := some denyResult }
    else
      containersLoop lib admissionrequest req response rest

/-- The function `Handler` (lines 26-104). -/
def Handler {ρ : Type} (lib : Library ρ) (request : APIGatewayProxyRequest) : Outcome :=
  let body := request.Body
  let response : AdmissionResponse := { Allowed := true, Result := some allowResult }
  if body.length < 1 then
    Outcome.ret {} (some ErrNameNotProvided)
  else
    match lib.Unmarshal body with
    | none => Outcome.ret {} (some ErrNameNotProvided)
    | some admissionrequest =>
      match admissionrequest.Request with
      | none => Outcome.panic
      | some req =>
        let response := { response with UID := req.UID }
        if req.Resource ≠ podResource then
          Outcome.ret {} (some ErrNameNotProvided)
        else
          match lib.Decode req.Object.Raw with
          | none => Outcome.ret {} (some ErrNameNotProvided)
          | some RequestPod =>
            containersLoop lib admissionrequest req response RequestPod.Spec.Containers

/-! ## A concrete library instance

A small line-oriented wire format standing in for the JSON and Kubernetes
codecs, so that the handler can be run on concrete bodies.  A string is
written as its characters, each behind a dot, closed by a semicolon; an
integer as a sign followed by that many strokes. -/

/-- Write a string field. -/
def writeChars : List Char → List Char
  | [] => [';']
  | c :: cs => '.' :: c :: writeChars cs

/-- Read a string field and give back the remaining input. -/
def readChars : List Char → Option (List Char × List Char)
  | '.' :: c :: rest => (readChars rest).map fun p => (c :: p.1, p.2)
  | ';' :: rest => some ([], rest)
  | _ => none

/-- Write a natural number in strokes. -/
def writeNat : Nat → List Char
  | 0 => [';']
  | n + 1 => 'i' :: writeNat n

/-- Read a natural number and give back the remaining input. -/
def readNat : List Char → Option (Nat × List Char)
  | 'i' :: rest => (readNat rest).map fun p => (p.1 + 1, p.2)
  | ';' :: rest => some (0, rest)
  | _ => none

/-- Write an integer. -/
def writeInt : Int → List Char
  | Int.ofNat n => '+' :: writeNat n
  | Int.negSucc n => '-' :: writeNat n

/-- Read an integer and give back the remaining input. -/
def readInt : List Char → Option (Int × List Char)
  | '+' :: rest => (readNat rest).map fun p => (Int.ofNat p.1, p.2)
  | '-' :: rest => (readNat rest).map fun p => (Int.negSucc p.1, p.2)
  | _ => none

/-- Write an optional status. -/
def writeResult : Option Status → List Char
  | none => ['n']
  | some st =>
    's' :: (writeChars st.Status.data ++ (writeChars st.Message.data
      ++ (writeChars st.Reason.data ++ writeInt st.Code)))

/-- Read an optional status and give back the remaining input. -/
def readResult : List Char → Option (Option Status × List Char)
  | 'n' :: rest => some (none, rest)
  | 's' :: rest => do
    let a ← readChars rest
    let b ← readChars a.2
    let c ← readChars b.2
    let d ← readInt c.2
    some (some { Status := String.mk a.1, Message := String.mk b.1,
                 Reason := String.mk c.1, Code := d.1 }, d.2)
  | _ => none

/-- Write an optional response, the last field of a review. -/
def writeResponse : Option AdmissionResponse → List Char
  | none => ['n']
  | some r =>
    'r' :: (writeChars r.UID.data ++ ((if r.Allowed then 'T' else 'F') :: writeResult r.Result))

/-- Read an optional response, which must end the input. -/
def readResponse : List Char → Option (Option AdmissionResponse)
  | ['n'] => some none
  | 'r' :: rest => do
    let a ← readChars rest
    match a.2 with
    | 'T' :: more =>
      match readResult more with
      | some (res, []) => some (some { UID := String.mk a.1, Allowed := true, Result := res })
      | _ => none
    | 'F' :: more =>
      match readResult more with
      | some (res, []) => some (some { UID := String.mk a.1, Allowed := false, Result := res })
      | _ => none
    | _ => none
  | _ => none

/-- Write a review: the request with its UID, resource and object bytes, then
the response. -/
def writeReview (r : AdmissionReview Unit) : List Char :=
  match r.Request with
  | none => 'N' :: writeResponse r.Response
  | some q =>
    'R' :: (writeChars q.UID.data ++ (writeChars q.Resource.Group.data
      ++ (writeChars q.Resource.Version.data ++ (writeChars q.Resource.Resource.data
      ++ (writeChars (q.Object.Raw.map fun b => Char.ofNat b.toNat)
      ++ writeResponse r.Response)))))

/-- Read a review. -/
def readReview : List Char → Option (AdmissionReview Unit)
  | 'N' :: rest => (readResponse rest).map fun resp => { Response := resp }
  | 'R' :: rest => do
    let u ← readChars rest
    let g ← readChars u.2
    let v ← readChars g.2
    let k ← readChars v.2
    let o ← readChars k.2
    let resp ← readResponse o.2
    some { Request := some
             { UID := String.mk u.1
               Resource := { Group := String.mk g.1, Version := String.mk v.1,
                             Resource := String.mk k.1 }
               Object := { Raw := o.1.map fun c => c.toNat.toUInt8 }
               Other := () }
           Response := resp }
  | _ => none

/-- A container with `n` environment variables. -/
def sampleContainer (n : Nat) : Container :=
  { Name := "c", Env := List.replicate n { Name := "E", Value := "1" } }

/-- One byte of a sample Pod encoding: a digit adds a container with that many
environment variables, to the init containers when the byte before was `i`
(105); a letter `a` to `h` extends the Pod name.  The flag tells whether an
`i` is pending. -/
def samplePodStep (st : Option (Pod × Bool)) (b : UInt8) : Option (Pod × Bool) :=
  match st with
  | none => none
  | some (p, pending) =>
    if b.toNat = 105 then
      if pending then none else some (p, true)
    else if 48 ≤ b.toNat ∧ b.toNat ≤ 57 then
      if pending then
        some ({ p with Spec := { p.Spec with
                  InitContainers := p.Spec.InitContainers ++ [sampleContainer (b.toNat - 48)] } },
              false)
      else
        some ({ p with Spec := { p.Spec with
                  Containers := p.Spec.Containers ++ [sampleContainer (b.toNat - 48)] } },
              false)
    else if 97 ≤ b.toNat ∧ b.toNat ≤ 104 ∧ pending = false then
      some ({ p with ObjectMeta := { p.ObjectMeta with
                Name := p.ObjectMeta.Name.push (Char.ofNat b.toNat) } }, false)
    else none

/-- The sample Pod decoder. -/
def samplePod (raw : List UInt8) : Option Pod :=
  match raw.foldl samplePodStep (some ({}, false)) with
  | some (p, false) => some p
  | _ => none

/-- The concrete library instance.  As under `encoding/json`, the body of an
empty JSON object decodes without error to the zero review, whose `Request`
is nil. -/
def sampleLibrary : Library Unit where
  Unmarshal := fun body => if body = "\x7b\x7d" then some {} else readReview body.data
  Decode := samplePod
  Marshal := fun review => some (String.mk (writeReview review))

/-- The body of a request for a Pod whose containers have 1, 0 and 2
environment variables. -/
def denyRequest : APIGatewayProxyRequest :=
  { Body := "R.u.1;;.v.1;.p.o.d.s;.1.0.2;n" }

/-- The body of a request for a Pod named `ab` with an init container of 3
environment variables and containers of 1 and 0. -/
def allowRequest : APIGatewayProxyRequest :=
  { Body := "R.u.1;;.v.1;.p.o.d.s;.a.b.i.3.1.0;n" }

/-- The body of a second allowed request: a Pod with two containers of one
environment variable each. -/
def allowRequest2 : APIGatewayProxyRequest :=
  { Body := "R.u.1;;.v.1;.p.o.d.s;.1.1;n" }

/-- The body of a request for a Deployment. -/
def deploymentRequest : APIGatewayProxyRequest :=
  { Body := "R.u.2;.a.p.p.s;.v.1;.d.e.p.l.o.y.m.e.n.t.s;.2;n" }

/-- The body that is an empty JSON object. -/
def emptyObjectRequest : APIGatewayProxyRequest :=
  { Body := "\x7b\x7d" }

/-- The request struct that `sampleLibrary` decodes for UID `u1`, the Pod
resource and the given object bytes. -/
def podRequest (raw : List UInt8) : AdmissionRequest Unit :=
  { UID := "u1", Resource := { Group := "", Version := "v1", Resource := "pods" },
    Object := { Raw := raw }, Other := () }

/-- The Pod that `sampleLibrary` decodes from the object of `denyRequest`. -/
def denyPod : Pod :=
  { Spec := { Containers := [sampleContainer 1, sampleContainer 0, sampleContainer 2] } }

/-- The Pod that `sampleLibrary` decodes from the object of `allowRequest`. -/
def allowPod : Pod :=
  { ObjectMeta := { Name := "ab" }
    Spec := { InitContainers := [sampleContainer 3]
              Containers := [sampleContainer 1, sampleContainer 0] } }

/-- The Pod that `sampleLibrary` decodes from the object of `allowRequest2`. -/
def allowPod2 : Pod :=
  { Spec := { Containers := [sampleContainer 1, sampleContainer 1] } }

/-- The review that answers `denyRequest`. -/
def denyAnswer : AdmissionReview Unit :=
  { Request := some (podRequest [])
    Response := some
      { UID := "u1", Allowed := false
        Result := some
          { Code := 200
            Message := "Has env vars so not allowing !! Allowed if there is no envvars"
            Reason := "Has env vars so not allowing !! Allowed if there is no envvars"
            Status := "Has env vars so not allowing !! Allowed if there is no envvars" } } }

/-- The review that answers `allowRequest` and `allowRequest2`. -/
def allowAnswer : AdmissionReview Unit :=
  { Request := some (podRequest [])
    Response := some
      { UID := "u1", Allowed := true
        Result := some { Code := 200, Message := "Allowed if there is no envvars" } } }

/-- The response to `denyRequest`. -/
def denyResponse : APIGatewayProxyResponse :=
  { StatusCode := 200, Body := String.mk (writeReview denyAnswer) }

/-- The response to `allowRequest` and `allowRequest2`. -/
def allowResponse : APIGatewayProxyResponse :=
  { StatusCode := 200, Body := String.mk (writeReview allowAnswer) }

/-! ## Specification-side definitions -/

/-- The policy as a closed formula: the response that the loop of lines 71-93
leaves for a request UID and a container list.  This is the comparison term of
`containersLoop_eq`, not a part of the program. -/
def verdict (uid : String) (containers : List Container) : AdmissionResponse :=
  if containers.any (fun c => decide (1 < c.Env.length)) then
    { UID := uid, Allowed := false, Result := some denyResult }
  else
    { UID := uid, Allowed := true, Result := some allowResult }

/-- The review handed to the serializer: the decoded review with the response
attached and both request objects cleared. -/
def echoed {ρ : Type} (rv : AdmissionReview ρ) (req : AdmissionRequest ρ)
    (response : AdmissionResponse) : AdmissionReview ρ :=
  { rv with Response := some response
            Request := some { req with Object := {}, OldObject := {} } }

/-! ## Basic facts -/

theorem trimSpace_allow :
    TrimSpace "Allowed if there is no envvars" = "Allowed if there is no envvars" := by
  decide

theorem trimSpace_deny :
    TrimSpace "Has env vars so not allowing !! Allowed if there is no envvars"
      = "Has env vars so not allowing !! Allowed if there is no envvars" := by
  decide

theorem allowResult_eq :
    allowResult = { Code := 200, Message := "Allowed if there is no envvars" } := by
  simp [allowResult, trimSpace_allow]

theorem denyResult_eq :
    denyResult =
      { Code := 200
        Message := "Has env vars so not allowing !! Allowed if there is no envvars"
        Reason := "Has env vars so not allowing !! Allowed if there is no envvars"
        Status := "Has env vars so not allowing !! Allowed if there is no envvars" } := by
  simp [denyResult, trimSpace_deny]

theorem writeVerdict_eq {ρ : Type} (lib : Library ρ) (rv : AdmissionReview ρ)
    (req : AdmissionRequest ρ) (response : AdmissionResponse) :
    writeVerdict lib rv req response =
      Outcome.ret { StatusCode := 200, Body := (lib.Marshal (echoed rv req response)).getD "" }
        none := rfl

/-- The loop computes `verdict`. -/
theorem containersLoop_eq {ρ : Type} (lib : Library ρ) (rv : AdmissionReview ρ)
    (req : AdmissionRequest ρ) (uid : String) (cs : List Container) :
    containersLoop lib rv req { UID := uid, Allowed := true, Result := some allowResult } cs
      = writeVerdict lib rv req (verdict uid cs) := by
  induction cs with
  | nil => simp [containersLoop, verdict]
  | cons c rest ih =>
    by_cases hc : 1 < c.Env.length
    · simp [containersLoop, verdict, hc]
    · have hrest : verdict uid (c :: rest) = verdict uid rest := by
        simp [verdict, hc]
      simp [containersLoop, hc, ih, hrest]

theorem verdict_of_exists (uid : String) (cs : List Container)
    (h : ∃ c ∈ cs, 2 ≤ c.Env.length) :
    verdict uid cs = { UID := uid, Allowed := false, Result := some denyResult } := by
  have : cs.any (fun c => decide (1 < c.Env.length)) = true := by
    obtain ⟨c, hc, h2⟩ := h
    exact List.any_eq_true.mpr ⟨c, hc, by simpa using h2⟩
  simp [verdict, this]

theorem verdict_of_forall (uid : String) (cs : List Container)
    (h : ∀ c ∈ cs, c.Env.length ≤ 1) :
    verdict uid cs = { UID := uid, Allowed := true, Result := some allowResult } := by
  have : cs.any (fun c => decide (1 < c.Env.length)) = false := by
    rw [List.any_eq_false]
    intro c hc
    have := h c hc
    simp
    omega
  simp [verdict, this]

theorem length_lt_one_iff (s : String) : s.length < 1 ↔ s = "" := by
  constructor
  · intro h
    have h0 : s.data.length = 0 := by
      have : s.length = s.data.length := rfl
      omega
    exact String.ext (List.eq_nil_of_length_eq_zero h0)
  · rintro rfl
    decide

/-- The handler on a request that passes the four checks. -/
theorem Handler_valid {ρ : Type} (lib : Library ρ) (request : APIGatewayProxyRequest)
    (rv : AdmissionReview ρ) (req : AdmissionRequest ρ) (pod : Pod)
    (hbody : request.Body ≠ "")
    (hparse : lib.Unmarshal request.Body = some rv)
    (hreq : rv.Request = some req)
    (hres : req.Resource = podResource)
    (hpod : lib.Decode req.Object.Raw = some pod) :
    Handler lib request =
      Outcome.ret
        { StatusCode := 200
          Body := (lib.Marshal (echoed rv req (verdict req.UID pod.Spec.Containers))).getD "" }
        none := by
  have hlen : ¬ request.Body.length < 1 := fun h => hbody ((length_lt_one_iff _).mp h)
  simp only [Handler, hlen, if_false, hparse, hreq, hres, ne_eq, not_true_eq_false, hpod,
    containersLoop_eq, writeVerdict_eq]

/-- The handler on a body whose review has a nil `Request`. -/
theorem Handler_nil_request {ρ : Type} (lib : Library ρ) (request : APIGatewayProxyRequest)
    (rv : AdmissionReview ρ)
    (hbody : request.Body ≠ "")
    (hparse : lib.Unmarshal request.Body = some rv)
    (hreq : rv.Request = none) :
    Handler lib request = Outcome.panic := by
  have hlen : ¬ request.Body.length < 1 := fun h => hbody ((length_lt_one_iff _).mp h)
  simp only [Handler, hlen, if_false, hparse, hreq]

/-- The four ways to the sentinel error. -/
theorem Handler_error_of_empty {ρ : Type} (lib : Library ρ) (request : APIGatewayProxyRequest)
    (hbody : request.Body = "") :
    Handler lib request = Outcome.ret {} (some ErrNameNotProvided) := by
  have hlen : request.Body.length < 1 := (length_lt_one_iff _).mpr hbody
  simp only [Handler, hlen, if_true]

theorem Handler_error_of_unparseable {ρ : Type} (lib : Library ρ)
    (request : APIGatewayProxyRequest) (hparse : lib.Unmarshal request.Body = none) :
    Handler lib request = Outcome.ret {} (some ErrNameNotProvided) := by
  by_cases hlen : request.Body.length < 1
  · simp only [Handler, hlen, if_true]
  · simp only [Handler, hlen, if_false, hparse]

theorem Handler_error_of_resource {ρ : Type} (lib : Library ρ)
    (request : APIGatewayProxyRequest) (rv : AdmissionReview ρ) (req : AdmissionRequest ρ)
    (hparse : lib.Unmarshal request.Body = some rv) (hreq : rv.Request = some req)
    (hres : req.Resource ≠ podResource) :
    Handler lib request = Outcome.ret {} (some ErrNameNotProvided) := by
  by_cases hlen : request.Body.length < 1
  · simp only [Handler, hlen, if_true]
  · simp only [Handler, hlen, if_false, hparse, hreq, ne_eq, hres, not_false_eq_true, if_true]

theorem Handler_error_of_undecodable {ρ : Type} (lib : Library ρ)
    (request : APIGatewayProxyRequest) (rv : AdmissionReview ρ) (req : AdmissionRequest ρ)
    (hparse : lib.Unmarshal request.Body = some rv) (hreq : rv.Request = some req)
    (hpod : lib.Decode req.Object.Raw = none) :
    Handler lib request = Outcome.ret {} (some ErrNameNotProvided) := by
  by_cases hlen : request.Body.length < 1
  · simp only [Handler, hlen, if_true]
  · by_cases hres : req.Resource = podResource
    · simp only [Handler, hlen, if_false, hparse, hreq, hres, ne_eq, not_true_eq_false, hpod]
    · exact Handler_error_of_resource lib request rv req hparse hreq hres

/-- Every call falls in exactly one of the six branches of the handler. -/
theorem Handler_cases {ρ : Type} (lib : Library ρ) (request : APIGatewayProxyRequest) :
    (request.Body = "" ∧ Handler lib request = Outcome.ret {} (some ErrNameNotProvided))
    ∨ (request.Body ≠ "" ∧ lib.Unmarshal request.Body = none
        ∧ Handler lib request = Outcome.ret {} (some ErrNameNotProvided))
    ∨ (∃ rv, request.Body ≠ "" ∧ lib.Unmarshal request.Body = some rv ∧ rv.Request = none
        ∧ Handler lib request = Outcome.panic)
    ∨ (∃ rv req, request.Body ≠ "" ∧ lib.Unmarshal request.Body = some rv
        ∧ rv.Request = some req ∧ req.Resource ≠ podResource
        ∧ Handler lib request = Outcome.ret {} (some ErrNameNotProvided))
    ∨ (∃ rv req, request.Body ≠ "" ∧ lib.Unmarshal request.Body = some rv
        ∧ rv.Request = some req ∧ req.Resource = podResource
        ∧ lib.Decode req.Object.Raw = none
        ∧ Handler lib request = Outcome.ret {} (some ErrNameNotProvided))
    ∨ (∃ rv req pod, request.Body ≠ "" ∧ lib.Unmarshal request.Body = some rv
        ∧ rv.Request = some req ∧ req.Resource = podResource
        ∧ lib.Decode req.Object.Raw = some pod
        ∧ Handler lib request =
            Outcome.ret
              { StatusCode := 200
                Body := (lib.Marshal
                  (echoed rv req (verdict req.UID pod.Spec.Containers))).getD "" }
              none) := by
  by_cases hbody : request.Body = ""
  · exact Or.inl ⟨hbody, Handler_error_of_empty lib request hbody⟩
  · rcases Option.eq_none_or_eq_some (lib.Unmarshal request.Body) with hparse | ⟨rv, hparse⟩
    · exact Or.inr (Or.inl ⟨hbody, hparse, Handler_error_of_unparseable lib request hparse⟩)
    · rcases Option.eq_none_or_eq_some rv.Request with hreq | ⟨req, hreq⟩
      · exact Or.inr (Or.inr (Or.inl
          ⟨rv, hbody, hparse, hreq, Handler_nil_request lib request rv hbody hparse hreq⟩))
      · by_cases hres : req.Resource = podResource
        · rcases Option.eq_none_or_eq_some (lib.Decode req.Object.Raw) with hpod | ⟨pod, hpod⟩
          · exact Or.inr (Or.inr (Or.inr (Or.inr (Or.inl
              ⟨rv, req, hbody, hparse, hreq, hres, hpod,
                Handler_error_of_undecodable lib request rv req hparse hreq hpod⟩))))
          · exact Or.inr (Or.inr (Or.inr (Or.inr (Or.inr
              ⟨rv, req, pod, hbody, hparse, hreq, hres, hpod,
                Handler_valid lib request rv req pod hbody hparse hreq hres hpod⟩))))
        · exact Or.inr (Or.inr (Or.inr (Or.inl
            ⟨rv, req, hbody, hparse, hreq, hres,
              Handler_error_of_resource lib request rv req hparse hreq hres⟩)))

/-- A verdict (a return with a nil error) comes from the last branch only. -/
theorem Handler_verdict_inv {ρ : Type} (lib : Library ρ) (request : APIGatewayProxyRequest)
    (resp : APIGatewayProxyResponse) (h : Handler lib request = Outcome.ret resp none) :
    ∃ rv req pod, request.Body ≠ "" ∧ lib.Unmarshal request.Body = some rv
      ∧ rv.Request = some req ∧ req.Resource = podResource
      ∧ lib.Decode req.Object.Raw = some pod
      ∧ resp = { StatusCode := 200
                 Body := (lib.Marshal
                   (echoed rv req (verdict req.UID pod.Spec.Containers))).getD "" } := by
  rcases Handler_cases lib request with h1 | h1 | h1 | h1 | h1 | h1
  · rw [h1.2] at h; simp at h
  · rw [h1.2.2] at h; simp at h
  · obtain ⟨rv, _, _, _, h2⟩ := h1
    rw [h2] at h; simp at h
  · obtain ⟨rv, req, _, _, _, _, h2⟩ := h1
    rw [h2] at h; simp at h
  · obtain ⟨rv, req, _, _, _, _, _, h2⟩ := h1
    rw [h2] at h; simp at h
  · obtain ⟨rv, req, pod, hb, hp, hr, hres, hpod, h2⟩ := h1
    rw [h2] at h
    simp only [Outcome.ret.injEq, and_true] at h
    exact ⟨rv, req, pod, hb, hp, hr, hres, hpod, h.symm⟩

/-! ## Concrete runs -/

theorem denyRequest_decodes :
    sampleLibrary.Unmarshal denyRequest.Body = some { Request := some (podRequest [49, 48, 50]) }
      ∧ sampleLibrary.Decode [49, 48, 50] = some denyPod := by
  decide

theorem allowRequest_decodes :
    sampleLibrary.Unmarshal allowRequest.Body
        = some { Request := some (podRequest [97, 98, 105, 51, 49, 48]) }
      ∧ sampleLibrary.Decode [97, 98, 105, 51, 49, 48] = some allowPod := by
  decide

theorem allowRequest2_decodes :
    sampleLibrary.Unmarshal allowRequest2.Body = some { Request := some (podRequest [49, 49]) }
      ∧ sampleLibrary.Decode [49, 49] = some allowPod2 := by
  decide

set_option maxRecDepth 100000 in
theorem denyRequest_runs :
    Handler sampleLibrary denyRequest = Outcome.ret denyResponse none := by
  decide

set_option maxRecDepth 100000 in
theorem allowRequest_runs :
    Handler sampleLibrary allowRequest = Outcome.ret allowResponse none := by
  decide

set_option maxRecDepth 100000 in
theorem allowRequest2_runs :
    Handler sampleLibrary allowRequest2 = Outcome.ret allowResponse none := by
  decide

/-! ## The claims -/

/-- C1. A request with a non-empty body that parses as an AdmissionReview for
the resource `("", "v1", "pods")` and carries a decodable Pod, some entry of whose
`Spec.Containers`, at any position of the list, has two or more `Env` entries,
is answered with status 200, a nil error and the serialization of the review
whose response has `Allowed = false`, `Result.Code = 200` and the deny text as
message, reason and status. -/
theorem deny_when_some_container_has_two_env {ρ : Type} (lib : Library ρ)
    (request : APIGatewayProxyRequest) (rv : AdmissionReview ρ) (req : AdmissionRequest ρ)
    (pod : Pod)
    (hbody : request.Body ≠ "")
    (hparse : lib.Unmarshal request.Body = some rv)
    (hreq : rv.Request = some req)
    (hres : req.Resource = { Group := "", Version := "v1", Resource := "pods" })
    (hpod : lib.Decode req.Object.Raw = some pod)
    (henv : ∃ c ∈ pod.Spec.Containers, 2 ≤ c.Env.length) :
    ∃ review response result,
      Handler lib request
          = Outcome.ret { StatusCode := 200, Body := (lib.Marshal review).getD "" } none
        ∧ review = { rv with Response := some response
                             Request := some { req with Object := {}, OldObject := {} } }
        ∧ response.Allowed = false
        ∧ response.Result = some result
        ∧ result.Code = 200
        ∧ result.Message = "Has env vars so not allowing !! Allowed if there is no envvars"
        ∧ result.Reason = "Has env vars so not allowing !! Allowed if there is no envvars"
        ∧ result.Status = "Has env vars so not allowing !! Allowed if there is no envvars" := by
  refine ⟨echoed rv req (verdict req.UID pod.Spec.Containers),
    verdict req.UID pod.Spec.Containers, denyResult,
    Handler_valid lib request rv req pod hbody hparse hreq hres hpod, rfl, ?_⟩
  rw [verdict_of_exists req.UID pod.Spec.Containers henv, denyResult_eq]
  simp

/-- C1, run on `denyRequest`: containers with 1, 0 and 2 environment variables. -/
theorem deny_when_some_container_has_two_env_witness :
    ∃ review response result,
      Handler sampleLibrary denyRequest
          = Outcome.ret { StatusCode := 200, Body := (sampleLibrary.Marshal review).getD "" } none
        ∧ review = { Response := some response, Request := some (podRequest []) }
        ∧ response.Allowed = false
        ∧ response.Result = some result
        ∧ result.Code = 200
        ∧ result.Message = "Has env vars so not allowing !! Allowed if there is no envvars"
        ∧ result.Reason = "Has env vars so not allowing !! Allowed if there is no envvars"
        ∧ result.Status = "Has env vars so not allowing !! Allowed if there is no envvars" :=
  deny_when_some_container_has_two_env sampleLibrary denyRequest
    { Request := some (podRequest [49, 48, 50]) } (podRequest [49, 48, 50]) denyPod
    (by decide) denyRequest_decodes.1 rfl rfl denyRequest_decodes.2
    ⟨sampleContainer 2, by decide, by decide⟩

/-- C2. A request that passes the four checks and whose Pod has only containers
with at most one `Env` entry (an empty container list included) is answered
with status 200, a nil error and the serialization of the review whose
response has `Allowed = true`, `Result.Code = 200` and the allow message. -/
theorem allow_when_every_container_has_at_most_one_env {ρ : Type} (lib : Library ρ)
    (request : APIGatewayProxyRequest) (rv : AdmissionReview ρ) (req : AdmissionRequest ρ)
    (pod : Pod)
    (hbody : request.Body ≠ "")
    (hparse : lib.Unmarshal request.Body = some rv)
    (hreq : rv.Request = some req)
    (hres : req.Resource = { Group := "", Version := "v1", Resource := "pods" })
    (hpod : lib.Decode req.Object.Raw = some pod)
    (henv : ∀ c ∈ pod.Spec.Containers, c.Env.length ≤ 1) :
    ∃ review response result,
      Handler lib request
          = Outcome.ret { StatusCode := 200, Body := (lib.Marshal review).getD "" } none
        ∧ review = { rv with Response := some response
                             Request := some { req with Object := {}, OldObject := {} } }
        ∧ response.Allowed = true
        ∧ response.Result = some result
        ∧ result.Code = 200
        ∧ result.Message = "Allowed if there is no envvars" := by
  refine ⟨echoed rv req (verdict req.UID pod.Spec.Containers),
    verdict req.UID pod.Spec.Containers, allowResult,
    Handler_valid lib request rv req pod hbody hparse hreq hres hpod, rfl, ?_⟩
  rw [verdict_of_forall req.UID pod.Spec.Containers henv, allowResult_eq]
  simp

/-- C2, run on `allowRequest2`: two containers with one environment variable each. -/
theorem allow_when_every_container_has_at_most_one_env_witness :
    ∃ review response result,
      Handler sampleLibrary allowRequest2
          = Outcome.ret { StatusCode := 200, Body := (sampleLibrary.Marshal review).getD "" } none
        ∧ review = { Response := some response, Request := some (podRequest []) }
        ∧ response.Allowed = true
        ∧ response.Result = some result
        ∧ result.Code = 200
        ∧ result.Message = "Allowed if there is no envvars" :=
  allow_when_every_container_has_at_most_one_env sampleLibrary allowRequest2
    { Request := some (podRequest [49, 49]) } (podRequest [49, 49]) allowPod2
    (by decide) allowRequest2_decodes.1 rfl rfl allowRequest2_decodes.2 (by decide)

/-- C3. A non-empty body that parses to a review whose `Request` is nil makes
the call end without any returned pair: neither the sentinel error nor a
status 200 with a nil error.  None of the four listed causes holds of such a
body, so the equivalence of the claim fails there. -/
theorem no_return_when_request_is_nil {ρ : Type} (lib : Library ρ)
    (request : APIGatewayProxyRequest) (rv : AdmissionReview ρ)
    (hbody : request.Body ≠ "")
    (hparse : lib.Unmarshal request.Body = some rv)
    (hnil : rv.Request = none) :
    ∀ (resp : APIGatewayProxyResponse) (err : Option GoError),
      Handler lib request ≠ Outcome.ret resp err := by
  intro resp err h
  rw [Handler_nil_request lib request rv hbody hparse hnil] at h
  cases h

/-- C3, run on the body of an empty JSON object. -/
theorem no_return_when_request_is_nil_witness :
    emptyObjectRequest.Body ≠ ""
      ∧ sampleLibrary.Unmarshal emptyObjectRequest.Body = some {}
      ∧ ∀ (resp : APIGatewayProxyResponse) (err : Option GoError),
          Handler sampleLibrary emptyObjectRequest ≠ Outcome.ret resp err :=
  ⟨by decide, by decide,
    no_return_when_request_is_nil sampleLibrary emptyObjectRequest {} (by decide) (by decide) rfl⟩

/-- C4. A body that parses to a review whose request names a resource other
than `("", "v1", "pods")` is answered with the empty response and
`ErrNameNotProvided`, whatever the object bytes are and whatever the Pod
decoder would make of them. -/
theorem wrong_resource_is_rejected {ρ : Type} (lib : Library ρ)
    (request : APIGatewayProxyRequest) (rv : AdmissionReview ρ) (req : AdmissionRequest ρ)
    (hparse : lib.Unmarshal request.Body = some rv)
    (hreq : rv.Request = some req)
    (hres : req.Resource ≠ { Group := "", Version := "v1", Resource := "pods" }) :
    ∀ decode : List UInt8 → Option Pod,
      Handler { lib with Decode := decode } request
        = Outcome.ret { StatusCode := 0, Body := "" } (some ErrNameNotProvided) := by
  intro decode
  exact Handler_error_of_resource { lib with Decode := decode } request rv req hparse hreq hres

/-- C4, run on `deploymentRequest` (`apps`, `v1`, `deployments`), with the
sample Pod decoder and with a decoder that accepts every object. -/
theorem wrong_resource_is_rejected_witness :
    Handler { sampleLibrary with Decode := sampleLibrary.Decode } deploymentRequest
        = Outcome.ret { StatusCode := 0, Body := "" } (some ErrNameNotProvided)
      ∧ Handler { sampleLibrary with Decode := fun _ => some denyPod } deploymentRequest
        = Outcome.ret { StatusCode := 0, Body := "" } (some ErrNameNotProvided) :=
  have h := wrong_resource_is_rejected sampleLibrary deploymentRequest
    { Request := some { UID := "u2"
                        Resource := { Group := "apps", Version := "v1", Resource := "deployments" }
                        Object := { Raw := [50] }, Other := () } }
    { UID := "u2", Resource := { Group := "apps", Version := "v1", Resource := "deployments" }
      Object := { Raw := [50] }, Other := () }
    (by decide) rfl (by decide)
  ⟨h sampleLibrary.Decode, h fun _ => some denyPod⟩

/-- C5. Whenever the handler returns a verdict (a response with a nil error),
the review it serialized carries a response whose UID is the UID of the
request decoded from the body, whatever string that is. -/
theorem response_uid_echoes_request_uid {ρ : Type} (lib : Library ρ)
    (request : APIGatewayProxyRequest) (resp : APIGatewayProxyResponse)
    (hret : Handler lib request = Outcome.ret resp none) :
    ∃ rv req review response,
      lib.Unmarshal request.Body = some rv
        ∧ rv.Request = some req
        ∧ resp.Body = (lib.Marshal review).getD ""
        ∧ review = { rv with Response := some response
                             Request := some { req with Object := {}, OldObject := {} } }
        ∧ response.UID = req.UID := by
  obtain ⟨rv, req, pod, _, hparse, hreq, _, _, hresp⟩ := Handler_verdict_inv lib request resp hret
  refine ⟨rv, req, echoed rv req (verdict req.UID pod.Spec.Containers),
    verdict req.UID pod.Spec.Containers, hparse, hreq, ?_, rfl, ?_⟩
  · rw [hresp]
  · unfold verdict
    split <;> rfl

/-- C5, run on `denyRequest`, whose request has UID `u1`. -/
theorem response_uid_echoes_request_uid_witness :
    Handler sampleLibrary denyRequest = Outcome.ret denyResponse none
      ∧ ∃ rv req review response,
          sampleLibrary.Unmarshal denyRequest.Body = some rv
            ∧ rv.Request = some req
            ∧ denyResponse.Body = (sampleLibrary.Marshal review).getD ""
            ∧ review = { rv with Response := some response
                                 Request := some { req with Object := {}, OldObject := {} } }
            ∧ response.UID = req.UID :=
  ⟨denyRequest_runs,
    response_uid_echoes_request_uid sampleLibrary denyRequest denyResponse denyRequest_runs⟩

/-- C6. Whenever the handler returns a verdict, allow or deny, the review it
serialized has a request whose `Object` and `OldObject` carry no bytes,
whatever the request decoded from the body carried there. -/
theorem echoed_objects_are_cleared {ρ : Type} (lib : Library ρ)
    (request : APIGatewayProxyRequest) (resp : APIGatewayProxyResponse)
    (hret : Handler lib request = Outcome.ret resp none) :
    ∃ rv req review response out,
      lib.Unmarshal request.Body = some rv
        ∧ rv.Request = some req
        ∧ resp.Body = (lib.Marshal review).getD ""
        ∧ review.Response = some response
        ∧ review.Request = some out
        ∧ out.Object = { Raw := [] }
        ∧ out.OldObject = { Raw := [] } := by
  obtain ⟨rv, req, pod, _, hparse, hreq, _, _, hresp⟩ := Handler_verdict_inv lib request resp hret
  refine ⟨rv, req, echoed rv req (verdict req.UID pod.Spec.Containers),
    verdict req.UID pod.Spec.Containers, { req with Object := {}, OldObject := {} },
    hparse, hreq, ?_, rfl, rfl, rfl, rfl⟩
  rw [hresp]

/-- C6, run on `denyRequest`, whose request carries three object bytes. -/
theorem echoed_objects_are_cleared_witness :
    Handler sampleLibrary denyRequest = Outcome.ret denyResponse none
      ∧ ∃ rv req review response out,
          sampleLibrary.Unmarshal denyRequest.Body = some rv
            ∧ rv.Request = some req
            ∧ denyResponse.Body = (sampleLibrary.Marshal review).getD ""
            ∧ review.Response = some response
            ∧ review.Request = some out
            ∧ out.Object = { Raw := [] }
            ∧ out.OldObject = { Raw := [] } :=
  ⟨denyRequest_runs,
    echoed_objects_are_cleared sampleLibrary denyRequest denyResponse denyRequest_runs⟩

/-- C8. A non-empty body that parses to a review whose `Request` is nil makes
the handler panic at the read of `Request.UID` (line 53): the call is not
total. -/
theorem Handler_panics_when_request_is_nil {ρ : Type} (lib : Library ρ)
    (request : APIGatewayProxyRequest) (rv : AdmissionReview ρ)
    (hbody : request.Body ≠ "")
    (hparse : lib.Unmarshal request.Body = some rv)
    (hnil : rv.Request = none) :
    Handler lib request = Outcome.panic :=
  Handler_nil_request lib request rv hbody hparse hnil

/-- C8, run on the body of an empty JSON object. -/
theorem Handler_panics_when_request_is_nil_witness :
    Handler sampleLibrary emptyObjectRequest = Outcome.panic :=
  Handler_panics_when_request_is_nil sampleLibrary emptyObjectRequest {}
    (by decide) (by decide) rfl

/-- C9. Whenever the handler returns a verdict, the review it serialized agrees
with the review decoded from the body in `TypeMeta` and in every field of the
request other than `Object` and `OldObject`. -/
theorem echoed_envelope_frame {ρ : Type} (lib : Library ρ)
    (request : APIGatewayProxyRequest) (resp : APIGatewayProxyResponse)
    (hret : Handler lib request = Outcome.ret resp none) :
    ∃ rv req review out,
      lib.Unmarshal request.Body = some rv
        ∧ rv.Request = some req
        ∧ resp.Body = (lib.Marshal review).getD ""
        ∧ review.TypeMeta = rv.TypeMeta
        ∧ review.Request = some out
        ∧ out.UID = req.UID
        ∧ out.Kind = req.Kind
        ∧ out.Resource = req.Resource
        ∧ out.Namespace = req.Namespace
        ∧ out.Operation = req.Operation
        ∧ out.UserInfo = req.UserInfo
        ∧ out.Other = req.Other := by
  obtain ⟨rv, req, pod, _, hparse, hreq, _, _, hresp⟩ := Handler_verdict_inv lib request resp hret
  refine ⟨rv, req, echoed rv req (verdict req.UID pod.Spec.Containers),
    { req with Object := {}, OldObject := {} },
    hparse, hreq, ?_, rfl, rfl, rfl, rfl, rfl, rfl, rfl, rfl, rfl⟩
  rw [hresp]

/-- C9, run on `allowRequest`. -/
theorem echoed_envelope_frame_witness :
    Handler sampleLibrary allowRequest = Outcome.ret allowResponse none
      ∧ ∃ rv req review out,
          sampleLibrary.Unmarshal allowRequest.Body = some rv
            ∧ rv.Request = some req
            ∧ allowResponse.Body = (sampleLibrary.Marshal review).getD ""
            ∧ review.TypeMeta = rv.TypeMeta
            ∧ review.Request = some out
            ∧ out.UID = req.UID
            ∧ out.Kind = req.Kind
            ∧ out.Resource = req.Resource
            ∧ out.Namespace = req.Namespace
            ∧ out.Operation = req.Operation
            ∧ out.UserInfo = req.UserInfo
            ∧ out.Other = req.Other :=
  ⟨allowRequest_runs,
    echoed_envelope_frame sampleLibrary allowRequest allowResponse allowRequest_runs⟩

/-- C10. Two requests that pass the four checks and whose reviews agree in
`TypeMeta` and in the request apart from `Object` and `OldObject` get the same
outcome as soon as their Pods agree on whether some entry of
`Spec.Containers` has more than one `Env` entry; nothing else of the Pods is
read.  A Pod whose init container has two or more environment variables while
every regular container has at most one is allowed. -/
theorem verdict_depends_only_on_env_lengths {ρ : Type} (lib : Library ρ)
    (request1 request2 : APIGatewayProxyRequest) (rv1 rv2 : AdmissionReview ρ)
    (req1 req2 : AdmissionRequest ρ) (pod1 pod2 : Pod)
    (hbody1 : request1.Body ≠ "")
    (hparse1 : lib.Unmarshal request1.Body = some rv1)
    (hreq1 : rv1.Request = some req1)
    (hres1 : req1.Resource = { Group := "", Version := "v1", Resource := "pods" })
    (hpod1 : lib.Decode req1.Object.Raw = some pod1)
    (hbody2 : request2.Body ≠ "")
    (hparse2 : lib.Unmarshal request2.Body = some rv2)
    (hreq2 : rv2.Request = some req2)
    (hres2 : req2.Resource = { Group := "", Version := "v1", Resource := "pods" })
    (hpod2 : lib.Decode req2.Object.Raw = some pod2)
    (hmeta : rv1.TypeMeta = rv2.TypeMeta)
    (henvelope : ({ req1 with Object := {}, OldObject := {} } : AdmissionRequest ρ)
      = { req2 with Object := {}, OldObject := {} })
    (hagree : (∃ c ∈ pod1.Spec.Containers, 1 < c.Env.length)
      ↔ (∃ c ∈ pod2.Spec.Containers, 1 < c.Env.length)) :
    Handler lib request1 = Handler lib request2
      ∧ ((∃ c ∈ pod1.Spec.InitContainers, 2 ≤ c.Env.length)
          → (∀ c ∈ pod1.Spec.Containers, c.Env.length ≤ 1)
          → ∃ review response,
              Handler lib request1
                = Outcome.ret { StatusCode := 200, Body := (lib.Marshal review).getD "" } none
              ∧ review = { rv1 with Response := some response
                                    Request := some { req1 with Object := {}, OldObject := {} } }
              ∧ response.Allowed = true) := by
  have h1 := Handler_valid lib request1 rv1 req1 pod1 hbody1 hparse1 hreq1 hres1 hpod1
  have h2 := Handler_valid lib request2 rv2 req2 pod2 hbody2 hparse2 hreq2 hres2 hpod2
  have huid : req1.UID = req2.UID := congrArg (fun r => r.UID) henvelope
  have hany : pod1.Spec.Containers.any (fun c => decide (1 < c.Env.length))
      = pod2.Spec.Containers.any (fun c => decide (1 < c.Env.length)) := by
    rw [Bool.eq_iff_iff]
    simpa using hagree
  have hv : verdict req1.UID pod1.Spec.Containers = verdict req2.UID pod2.Spec.Containers := by
    simp only [verdict, hany, huid]
  refine ⟨?_, ?_⟩
  · rw [h1, h2, hv]
    simp only [echoed, hmeta, henvelope]
  · intro _ hall
    refine ⟨_, verdict req1.UID pod1.Spec.Containers, h1, rfl, ?_⟩
    rw [verdict_of_forall req1.UID pod1.Spec.Containers hall]

/-- C10, run on `allowRequest` (a Pod named `ab`, an init container with three
environment variables, containers with one and none) and `allowRequest2` (an
unnamed Pod, no init container, two containers with one each). -/
theorem verdict_depends_only_on_env_lengths_witness :
    allowPod ≠ allowPod2
      ∧ Handler sampleLibrary allowRequest = Handler sampleLibrary allowRequest2
      ∧ ((∃ c ∈ allowPod.Spec.InitContainers, 2 ≤ c.Env.length)
          → (∀ c ∈ allowPod.Spec.Containers, c.Env.length ≤ 1)
          → ∃ review response,
              Handler sampleLibrary allowRequest
                = Outcome.ret
                    { StatusCode := 200, Body := (sampleLibrary.Marshal review).getD "" } none
              ∧ review = { Response := some response, Request := some (podRequest []) }
              ∧ response.Allowed = true) :=
  ⟨by decide,
    verdict_depends_only_on_env_lengths sampleLibrary allowRequest allowRequest2
      { Request := some (podRequest [97, 98, 105, 51, 49, 48]) }
      { Request := some (podRequest [49, 49]) }
      (podRequest [97, 98, 105, 51, 49, 48]) (podRequest [49, 49]) allowPod allowPod2
      (by decide) allowRequest_decodes.1 rfl rfl allowRequest_decodes.2
      (by decide) allowRequest2_decodes.1 rfl rfl allowRequest2_decodes.2
      rfl rfl (by decide)⟩

end AdmissionController
